import Mathlib

/-
Verification development for the weeklylink script (src/main.py).

The script is embedded shallowly:
- A feed entry (feedparser entry) is `Item`; its `updated_parsed` field is an
  optional epoch timestamp in seconds (`none` models an entry on which the
  attribute access `item.updated_parsed` would raise).
- `datetime.now()` is a single integer `now` in epoch seconds; the Python
  expression `(datetime.now() - item_date).days` is floor division of the
  difference by 86400 (Python timedelta normalises so that `.days` is the
  floor), modelled by `daysAgo` via `Int.fdiv`.
- Exceptions are modelled by `Except`; the spec's error taxonomy is mapped to
  the concrete exceptions of the code: `UnsupportedFilterError` is the
  `NotImplementedError` of `filter_items`, `MissingTimestampError` is the
  attribute error raised on an entry lacking `updated_parsed`.
- External collaborators (HTTP client, feedparser, jinja template, filesystem,
  `os.system`) are an explicit environment `Env` of oracle functions; the side
  effects of the publish step are recorded as a trace of `Event`s, and
  `os.system`'s returned exit codes come from `Env.system` (the code never
  inspects them).
- Python `str.isdigit` is modelled over ASCII digit strings, and `int(...)` on
  such a string by `String.toNat?`.
-/

/-- Feed entry as produced by feedparser: title, link, summary and the
`updated_parsed` timestamp (epoch seconds; `none` when the entry lacks it). -/
structure Item where
  title : String
  link : String
  summary : String
  updated_parsed : Option Int
deriving DecidableEq

/-- Error taxonomy of the filter step.  `unsupportedFilter` models the
`NotImplementedError("Filtering by date not implemented")` of
`PostBuilder.filter_items`; `missingTimestamp` models the attribute error
raised by `item.updated_parsed` on an entry without a timestamp. -/
inductive FilterError where
  | unsupportedFilter
  | missingTimestamp
deriving DecidableEq

/-- Python `str.isdigit()` restricted to ASCII: nonempty and all digits. -/
def str_isdigit (s : String) : Bool :=
  !s.isEmpty && s.toList.all (fun c => c.isDigit)

/-- Python `int(self.timespan)` on a digit string (src/main.py line 95). -/
def timespanInt (t : String) : Int :=
  ((t.toNat?.getD 0 : Nat) : Int)

/-- Python `(datetime.now() - item_date).days` (src/main.py line 93): floor of
the difference in seconds divided by one day. -/
def daysAgo (now ts : Int) : Int :=
  Int.fdiv (now - ts) 86400

/-- PostBuilder.filter_items_by_days (src/main.py lines 88-98): walk the items
in order; accessing a missing `updated_parsed` raises (error aborts the whole
step); an item is skipped iff `days_ago > int(timespan)`, kept otherwise. -/
def filter_items_by_days (timespan : String) (now : Int) :
    List Item → Except FilterError (List Item)
  | [] => Except.ok []
  | item :: rest =>
    match item.updated_parsed with
    | none => Except.error FilterError.missingTimestamp
    | some ts =>
      match filter_items_by_days timespan now rest with
      | Except.error e => Except.error e
      | Except.ok tail =>
        if daysAgo now ts > timespanInt timespan then Except.ok tail
        else Except.ok (item :: tail)

/-- PostBuilder.filter_items (src/main.py lines 76-86): numeric string
timespans dispatch to `filter_items_by_days`; anything else raises
`NotImplementedError` (the spec's `UnsupportedFilterError`). -/
def filter_items (timespan : String) (now : Int) (items : List Item) :
    Except FilterError (List Item) :=
  if str_isdigit timespan then filter_items_by_days timespan now items
  else Except.error FilterError.unsupportedFilter

/-- Configuration record held by PostBuilder (src/main.py lines 34-40). -/
structure PostBuilder where
  rss_url : Option String
  rss_path : Option String
  max_links : Option Nat
  timespan : String
  blog_repo : Option String
  blog_repo_branch : String
  path_to_post : String
deriving DecidableEq

/-- Message of the ValueError raised by the constructor (src/main.py 30-32). -/
def postBuilderInitErrMsg : String :=
  "Either rss URL or a local path to an RSS file must be provided"

/-- PostBuilder constructor (src/main.py lines 19-40): the only validation is
that not both feed sources are unset; all fields are then stored as given. -/
def PostBuilder.init (rss_url rss_path : Option String) (max_links : Option Nat)
    (timespan : String) (blog_repo : Option String)
    (blog_repo_branch path_to_post : String) : Except String PostBuilder :=
  if rss_url = none ∧ rss_path = none then Except.error postBuilderInitErrMsg
  else Except.ok ⟨rss_url, rss_path, max_links, timespan, blog_repo,
    blog_repo_branch, path_to_post⟩

/-- Side effects of a run, recorded in order.  `system cmd code` is an
`os.system(cmd)` call that returned exit status `code` (the code never reads
it); `mkdir` is a successful `os.mkdir`; `fileWrite` a successful write. -/
inductive Event where
  | system (cmd : String) (exitCode : Int)
  | mkdir (path : String)
  | fileWrite (path : String) (content : String)
deriving DecidableEq

/-- Environment of external collaborators for one run: HTTP GET results
(`none` models a RequestException), file reads (`none` models an OSError),
feedparser, the clock, the date string, the jinja renderer, the interactive
confirmation, `tempfile.mkdtemp`, `os.system` exit codes, and whether
`os.mkdir` / the file write succeed at a given path. -/
structure Env where
  urlResult : String → Option String
  fileResult : String → Option String
  parse : String → List Item
  now : Int
  today : String
  render : List Item → String
  confirm : Bool
  tmp_dir : String
  system : String → Int
  mkdirOk : String → Bool
  writeOk : String → Bool

/-- PostBuilder.fetch_rss_from_url (src/main.py lines 54-62): a
RequestException is caught and turned into `None`. -/
def fetch_rss_from_url (env : Env) (rss_url : String) : Option String :=
  env.urlResult rss_url

/-- Message standing for the OSError raised by `open(rss_path)`. -/
def fileReadErrMsg : String := "OSError: could not read RSS file"

/-- PostBuilder.fetch_rss_from_file (src/main.py lines 64-67): the file is
read with no exception handling, so a failing read raises. -/
def fetch_rss_from_file (env : Env) (rss_path : String) : Except String String :=
  match env.fileResult rss_path with
  | some content => Except.ok content
  | none => Except.error fileReadErrMsg

/-- PostBuilder.fetch_rss (src/main.py lines 47-52): the URL takes precedence;
with neither set, `open(None)` would raise a TypeError (unreachable after the
constructor's validation). -/
def fetch_rss (env : Env) (b : PostBuilder) : Except String (Option String) :=
  match b.rss_url with
  | some u => Except.ok (fetch_rss_from_url env u)
  | none =>
    match b.rss_path with
    | some p => Except.map some (fetch_rss_from_file env p)
    | none => Except.error "TypeError: open path is None"

/-- PostBuilder.parse_rss (src/main.py lines 69-74): pure delegation to
feedparser, modelled by the environment's `parse` oracle. -/
def parse_rss (env : Env) (rss : String) : List Item :=
  env.parse rss

/-- Python f-string interpolation of an Optional[str]: `None` prints as the
four-letter string. -/
def optStr : Option String → String
  | none => "None"
  | some s => s

/-- os.path.join for the relative components used here. -/
def pathJoin (a b : String) : String := a ++ "/" ++ b

/-- Slug for the post (src/main.py line 114). -/
def slugFor (today : String) : String := "assorted-links-" ++ today

/-- Clone command built at src/main.py line 119: note it interpolates only the
repo and the temporary directory, never `blog_repo_branch`. -/
def cloneCmdOf (b : PostBuilder) (env : Env) : String :=
  "git clone " ++ optStr b.blog_repo ++ " " ++ env.tmp_dir

/-- Directory created for the post (src/main.py line 120). -/
def postDirOf (b : PostBuilder) (env : Env) : String :=
  pathJoin (pathJoin env.tmp_dir b.path_to_post) (slugFor env.today)

/-- File the rendered post is written to (src/main.py line 127). -/
def postFileOf (b : PostBuilder) (env : Env) : String :=
  pathJoin (postDirOf b env) "index.md"

/-- Command disabling commit signing (src/main.py line 131). -/
def cfgCmdOf (env : Env) : String :=
  "git -C " ++ env.tmp_dir ++ " config --local commit.gpgsign false"

/-- Stage command (src/main.py lines 132-134). -/
def addCmdOf (b : PostBuilder) (env : Env) : String :=
  "git -C " ++ env.tmp_dir ++ " add " ++ postFileOf b env

/-- Commit command (src/main.py line 135). -/
def commitCmdOf (env : Env) : String :=
  "git -C " ++ env.tmp_dir ++ " commit -m 'Add new assorted links.'"

/-- Push command (src/main.py line 137). -/
def pushCmdOf (env : Env) : String :=
  "git -C " ++ env.tmp_dir ++ " push"

/-- PostBuilder.push_post_to_blog_repo (src/main.py lines 108-137): clone via
os.system (exit code recorded but never inspected), `os.mkdir` of the slug
directory (raises on failure), write `index.md` (raises on failure), then the
config/add/commit/push os.system calls, whose exit codes are likewise
recorded but never inspected.  The second component is the exception raised,
if any. -/
def push_post_to_blog_repo (b : PostBuilder) (env : Env) (post : String) :
    List Event × Option String :=
  let cloneCmd := cloneCmdOf b env
  let dirPath := postDirOf b env
  let ev1 := [Event.system cloneCmd (env.system cloneCmd)]
  if env.mkdirOk dirPath then
    let ev2 := ev1 ++ [Event.mkdir dirPath]
    let filePath := postFileOf b env
    if env.writeOk filePath then
      let ev3 := ev2 ++ [Event.fileWrite filePath post]
      (ev3 ++
        [Event.system (cfgCmdOf env) (env.system (cfgCmdOf env)),
         Event.system (addCmdOf b env) (env.system (addCmdOf b env)),
         Event.system (commitCmdOf env) (env.system (commitCmdOf env)),
         Event.system (pushCmdOf env) (env.system (pushCmdOf env))], none)
    else (ev2, some "OSError: could not write index.md")
  else (ev1, some "OSError: os.mkdir failed")

/-- Final status of a run of the click command: `success0` is a normal return
(exit status 0); `errorNonzero` is the ClickException raised from the
catch-all handler (src/main.py lines 201-203), which exits non-zero with a
user-visible message. -/
inductive ExitStatus where
  | success0
  | errorNonzero (msg : String)
deriving DecidableEq

/-- The main entry point (src/main.py lines 153-203): construct the builder,
fetch (a falsy result — `None` or the empty string — returns cleanly), parse,
filter (errors propagate to the catch-all), return cleanly on an empty
filtered set, render, optionally confirm interactively (a decline returns
cleanly), then publish.  Returns the recorded side-effect trace and the exit
status. -/
def mainRun (env : Env) (rss_url rss_path : Option String) (max_links : Option Nat)
    (timespan : String) (blog_repo : Option String)
    (blog_repo_branch path_to_post : String) (no_interactive : Bool) :
    List Event × ExitStatus :=
  match PostBuilder.init rss_url rss_path max_links timespan blog_repo
      blog_repo_branch path_to_post with
  | Except.error msg => ([], ExitStatus.errorNonzero msg)
  | Except.ok b =>
    match fetch_rss env b with
    | Except.error msg => ([], ExitStatus.errorNonzero msg)
    | Except.ok rssOpt =>
      match rssOpt with
      | none => ([], ExitStatus.success0)
      | some rss =>
        if rss = "" then ([], ExitStatus.success0)
        else
          match filter_items b.timespan env.now (parse_rss env rss) with
          | Except.error FilterError.unsupportedFilter =>
            ([], ExitStatus.errorNonzero "Filtering by date not implemented")
          | Except.error FilterError.missingTimestamp =>
            ([], ExitStatus.errorNonzero "object has no attribute updated_parsed")
          | Except.ok fitems =>
            if fitems.length = 0 then ([], ExitStatus.success0)
            else
              let post := env.render fitems
              if no_interactive = false && env.confirm = false then
                ([], ExitStatus.success0)
              else
                match push_post_to_blog_repo b env post with
                | (evs, some msg) => (evs, ExitStatus.errorNonzero msg)
                | (evs, none) => (evs, ExitStatus.success0)

/-
Concrete items and environments used by witnesses and counterexamples.
-/

/-- Entry updated 1000 seconds before the witness clock 864000. -/
def itemToday : Item := ⟨"a", "http://a", "sa", some 863000⟩

/-- Entry updated 90000 seconds (1 day and 1 hour) before 864000. -/
def itemYesterday : Item := ⟨"b", "http://b", "sb", some 774000⟩

/-- Entry updated 10 days before 864000. -/
def itemOld : Item := ⟨"c", "http://c", "sc", some 0⟩

/-- Entry dated 3600 seconds in the future of the clock 864000. -/
def futureItem : Item := ⟨"f", "http://f", "sf", some 867600⟩

/-- Entry with no `updated_parsed` timestamp. -/
def noTsItem : Item := ⟨"n", "http://n", "sn", none⟩

/-- Entry updated exactly at the clock 0 used by the publish scenarios. -/
def itemNow : Item := ⟨"t1", "http://l1", "s1", some 0⟩

/-- Environment in which every HTTP GET and every file read fails. -/
def envFileFail : Env :=
  ⟨fun _ => none, fun _ => none, fun _ => [], 0, "2025-02-11", fun _ => "",
   true, "/tmp/work", fun _ => 0, fun _ => true, fun _ => true⟩

/-- Environment whose feed fetch succeeds but parses to no entries. -/
def envEmptyFeed : Env :=
  ⟨fun _ => some "<rss/>", fun _ => none, fun _ => [], 0, "2025-02-11",
   fun _ => "", true, "/tmp/work", fun _ => 0, fun _ => true, fun _ => true⟩

/-- Environment with one fresh entry in the feed and every git command
exiting with status 128; mkdir and the file write succeed. -/
def envGitFail : Env :=
  ⟨fun _ => some "<rss/>", fun _ => none, fun _ => [itemNow], 0, "2025-02-11",
   fun _ => "POST", true, "/tmp/work", fun _ => 128, fun _ => true,
   fun _ => true⟩

/-
Helper lemmas shared by the claim theorems.
-/

/-- Retention test of the filter: kept iff at most `int(timespan)` floor-days
old, which is exactly a strict lower bound on the timestamp. -/
theorem daysAgo_le_iff (now ts w : Int) :
    daysAgo now ts ≤ w ↔ now - (w + 1) * 86400 < ts := by
  unfold daysAgo
  rw [Int.fdiv_eq_ediv _ (by decide : (0 : Int) ≤ 86400)]
  omega

/-- On a list of items that all carry timestamps, `filter_items_by_days` is
`List.filter` with the `days_ago` retention test. -/
theorem filter_items_by_days_eq_filter (t : String) (now : Int) :
    ∀ (items : List Item),
      items.all (fun i => i.updated_parsed.isSome) = true →
      filter_items_by_days t now items =
        Except.ok (items.filter
          (fun i => decide (daysAgo now (i.updated_parsed.getD 0) ≤ timespanInt t))) := by
  intro items h
  induction items with
  | nil => rfl
  | cons i rest ih =>
    rw [List.all_cons, Bool.and_eq_true] at h
    obtain ⟨h1, h2⟩ := h
    obtain ⟨ts, hts⟩ := Option.isSome_iff_exists.mp h1
    by_cases hgt : daysAgo now ts > timespanInt t
    · simp [filter_items_by_days, hts, ih h2, List.filter_cons, hgt, not_le.mpr hgt]
    · simp [filter_items_by_days, hts, ih h2, List.filter_cons, hgt, not_lt.mp hgt]

/-- A list containing an item without a timestamp makes
`filter_items_by_days` fail with the missing-timestamp error. -/
theorem filter_items_by_days_missing (t : String) (now : Int) :
    ∀ (items : List Item),
      items.any (fun i => i.updated_parsed.isNone) = true →
      filter_items_by_days t now items = Except.error FilterError.missingTimestamp := by
  intro items hmiss
  induction items with
  | nil => simp at hmiss
  | cons i rest ih =>
    rw [List.any_cons, Bool.or_eq_true] at hmiss
    cases hup : i.updated_parsed with
    | none => simp [filter_items_by_days, hup]
    | some ts =>
      have hrest : rest.any (fun i => i.updated_parsed.isNone) = true := by
        rcases hmiss with hmiss | hmiss
        · rw [hup] at hmiss; simp at hmiss
        · exact hmiss
      simp [filter_items_by_days, hup, ih hrest]

/-- The constructor succeeds, storing the fields unchanged, whenever at least
one feed source is given. -/
theorem init_ok_of_source (u p : Option String) (m : Option Nat) (t : String)
    (r : Option String) (br pp : String) (h : (u.isSome || p.isSome) = true) :
    PostBuilder.init u p m t r br pp = Except.ok ⟨u, p, m, t, r, br, pp⟩ := by
  have hc : ¬(u = none ∧ p = none) := by
    rintro ⟨rfl, rfl⟩; simp at h
  simp only [PostBuilder.init, if_neg hc]

/-
Claim theorems.
-/

/-- C1: for every numeric window string and every list of entries bearing
timestamps, the recency filter returns exactly the entries with
`days_ago ≤ int(window)` where `days_ago = floor((now - ts) / 86400)`, as a
stable subsequence of the input (it is literally `List.filter`, so order is
preserved and nothing is deduplicated). -/
theorem claim_C1_recency_filter_exact (t : String) (now : Int) (items : List Item)
    (hdigit : str_isdigit t = true)
    (hts : items.all (fun i => i.updated_parsed.isSome) = true) :
    filter_items t now items =
      Except.ok (items.filter
        (fun i => decide (daysAgo now (i.updated_parsed.getD 0) ≤ timespanInt t))) := by
  simp only [filter_items, hdigit, if_true]
  exact filter_items_by_days_eq_filter t now items hts

/-- C1 witness: window 7, clock 864000, entries from today, yesterday and ten
days ago; the hypotheses hold and the theorem applies. -/
theorem claim_C1_recency_filter_exact_witness :
    str_isdigit "7" = true ∧
    ([itemToday, itemYesterday, itemOld].all (fun i => i.updated_parsed.isSome) = true) ∧
    filter_items "7" 864000 [itemToday, itemYesterday, itemOld] =
      Except.ok ([itemToday, itemYesterday, itemOld].filter
        (fun i => decide (daysAgo 864000 (i.updated_parsed.getD 0) ≤ timespanInt "7"))) :=
  ⟨by decide, by decide,
   claim_C1_recency_filter_exact "7" 864000 [itemToday, itemYesterday, itemOld]
     (by decide) (by decide)⟩

/-- C2: with a window string that is not numeric the filter fails with the
unsupported-filter error for every list of entries; it never returns a list. -/
theorem claim_C2_nonnumeric_window_fails (t : String) (now : Int) (items : List Item)
    (h : str_isdigit t = false) :
    filter_items t now items = Except.error FilterError.unsupportedFilter := by
  simp [filter_items, h]

/-- C2 witness: a date-string window on a nonempty entry list. -/
theorem claim_C2_nonnumeric_window_fails_witness :
    str_isdigit "2025-02-11" = false ∧
    filter_items "2025-02-11" 864000 [itemToday] =
      Except.error FilterError.unsupportedFilter :=
  ⟨by decide, claim_C2_nonnumeric_window_fails "2025-02-11" 864000 [itemToday] (by decide)⟩

/-- C3 counterexample: with window 0 and clock 864000, an entry dated 3600
seconds in the future is retained by the code although its timestamp lies
outside the closed interval claimed, refuting the claim that entries outside
the interval (in particular future-dated ones) are excluded. -/
theorem claim_C3_interval_counterexample :
    filter_items "0" 864000 [futureItem] = Except.ok [futureItem] ∧
    ¬((864000 : Int) - 0 * 86400 ≤ 867600 ∧ (867600 : Int) ≤ 864000) := by
  constructor
  · rfl
  · decide

/-- C3 amended: the filtered set contains exactly the entries whose timestamp
is strictly greater than `now - (w+1)·86400` seconds — entries strictly less
than `w+1` floor-days old, including all future-dated entries; with window 0
this is the entries updated within the last 24 hours before `now` or at any
future time, not only those of the current calendar day. -/
theorem claim_C3_amended_interval (t : String) (now : Int) (items : List Item)
    (hdigit : str_isdigit t = true)
    (hts : items.all (fun i => i.updated_parsed.isSome) = true) :
    filter_items t now items =
      Except.ok (items.filter
        (fun i => decide (now - (timespanInt t + 1) * 86400 < i.updated_parsed.getD 0))) := by
  simp only [filter_items, hdigit, if_true,
    filter_items_by_days_eq_filter t now items hts]
  refine congrArg Except.ok (List.filter_congr ?_)
  intro i _
  exact decide_eq_decide.mpr (daysAgo_le_iff now (i.updated_parsed.getD 0) (timespanInt t))

/-- C3 witness: the amended theorem applied at window 0, clock 864000 and the
future-dated entry. -/
theorem claim_C3_amended_interval_witness :
    str_isdigit "0" = true ∧
    ([futureItem].all (fun i => i.updated_parsed.isSome) = true) ∧
    filter_items "0" 864000 [futureItem] =
      Except.ok ([futureItem].filter
        (fun i => decide ((864000 : Int) - (timespanInt "0" + 1) * 86400 < i.updated_parsed.getD 0))) :=
  ⟨by decide, by decide,
   claim_C3_amended_interval "0" 864000 [futureItem] (by decide) (by decide)⟩

/-- C4: with a numeric window, a list containing at least one entry without a
timestamp makes the whole filter step fail with the missing-timestamp error;
no partial list of remaining entries is returned. -/
theorem claim_C4_missing_timestamp_fails_whole_list (t : String) (now : Int)
    (items : List Item) (hdigit : str_isdigit t = true)
    (hmiss : items.any (fun i => i.updated_parsed.isNone) = true) :
    filter_items t now items = Except.error FilterError.missingTimestamp := by
  simp only [filter_items, hdigit, if_true]
  exact filter_items_by_days_missing t now items hmiss

/-- C4 witness: a list with one dated entry and one entry lacking a
timestamp fails as a whole. -/
theorem claim_C4_missing_timestamp_fails_whole_list_witness :
    str_isdigit "7" = true ∧
    ([itemToday, noTsItem].any (fun i => i.updated_parsed.isNone) = true) ∧
    filter_items "7" 864000 [itemToday, noTsItem] =
      Except.error FilterError.missingTimestamp :=
  ⟨by decide, by decide,
   claim_C4_missing_timestamp_fails_whole_list "7" 864000 [itemToday, noTsItem]
     (by decide) (by decide)⟩

/-- C5 counterexample: constructing with BOTH the feed URL and the feed path
set succeeds, refuting the claim that construction with both set fails
validation. -/
theorem claim_C5_both_set_counterexample :
    PostBuilder.init (some "http://example.com/rss") (some "/tmp/feed.xml")
        none "7" (some "repo") "main" "content/post" =
      Except.ok ⟨some "http://example.com/rss", some "/tmp/feed.xml", none, "7",
        some "repo", "main", "content/post"⟩ := rfl

/-- C5 amended: construction fails validation exactly when both feed sources
are unset; providing both succeeds (the URL then takes precedence when
fetching). -/
theorem claim_C5_amended_fail_iff_both_unset (u p : Option String) (m : Option Nat)
    (t : String) (r : Option String) (br pp : String) :
    PostBuilder.init u p m t r br pp = Except.error postBuilderInitErrMsg ↔
      (u = none ∧ p = none) := by
  by_cases h : u = none ∧ p = none
  · simp [PostBuilder.init, h]
  · simp [PostBuilder.init, h]

/-- C6 counterexample: with a local-path feed source whose read fails, the run
raises, is caught by the catch-all handler and exits non-zero — not with the
claimed clean status 0 (though indeed with no publish side effect). -/
theorem claim_C6_file_fetch_counterexample :
    mainRun envFileFail none (some "/feeds/f.xml") none "7" (some "repo") "main"
        "content/post" true =
      ([], ExitStatus.errorNonzero fileReadErrMsg) ∧
    ExitStatus.errorNonzero fileReadErrMsg ≠ ExitStatus.success0 := by
  constructor
  · rfl
  · decide

/-- C6 amended: a failed URL fetch is caught inside the fetcher, so the run
returns cleanly with status 0 and no side effect; a failed local-file read
propagates as an exception, so the run exits non-zero with a user-visible
error — still with no publish side effect in either case. -/
theorem claim_C6_amended_fetch_failure (env : Env) (u p : String)
    (po : Option String) (m : Option Nat) (t : String) (r : Option String)
    (br pp : String) (ni : Bool) :
    (env.urlResult u = none →
      mainRun env (some u) po m t r br pp ni = ([], ExitStatus.success0)) ∧
    (env.fileResult p = none →
      mainRun env none (some p) m t r br pp ni =
        ([], ExitStatus.errorNonzero fileReadErrMsg)) := by
  constructor
  · intro h
    have hc : ¬((some u : Option String) = none ∧ po = none) := by
      rintro ⟨hu, -⟩; exact Option.noConfusion hu
    simp [mainRun, PostBuilder.init, hc, fetch_rss, fetch_rss_from_url, h]
  · intro h
    have hc : ¬((none : Option String) = none ∧ (some p : Option String) = none) := by
      rintro ⟨-, hp⟩; exact Option.noConfusion hp
    simp [mainRun, PostBuilder.init, hc, fetch_rss, fetch_rss_from_file, h,
      fileReadErrMsg, Except.map]

/-- C6 witness: both branches of the amended theorem applied in the
environment where every fetch fails. -/
theorem claim_C6_amended_fetch_failure_witness :
    envFileFail.urlResult "http://x" = none ∧
    mainRun envFileFail (some "http://x") none none "7" (some "repo") "main"
        "content/post" true = ([], ExitStatus.success0) ∧
    envFileFail.fileResult "/feeds/f.xml" = none ∧
    mainRun envFileFail none (some "/feeds/f.xml") none "7" (some "repo") "main"
        "content/post" true = ([], ExitStatus.errorNonzero fileReadErrMsg) :=
  ⟨rfl,
   (claim_C6_amended_fetch_failure envFileFail "http://x" "/feeds/f.xml" none
     none "7" (some "repo") "main" "content/post" true).1 rfl,
   rfl,
   (claim_C6_amended_fetch_failure envFileFail "http://x" "/feeds/f.xml" none
     none "7" (some "repo") "main" "content/post" true).2 rfl⟩

/-- C7: whenever the filter step returns the empty list, the run ends with
status 0 and an empty side-effect trace: no clone, no directory creation, no
file write, no commit and no push are invoked. -/
theorem claim_C7_empty_filter_no_side_effects (env : Env) (u p : Option String)
    (m : Option Nat) (t : String) (r : Option String) (br pp : String)
    (ni : Bool) (rss : String)
    (hsrc : (u.isSome || p.isSome) = true)
    (hfetch : fetch_rss env ⟨u, p, m, t, r, br, pp⟩ = Except.ok (some rss))
    (hne : rss ≠ "")
    (hfilter : filter_items t env.now (env.parse rss) = Except.ok []) :
    mainRun env u p m t r br pp ni = ([], ExitStatus.success0) := by
  simp [mainRun, init_ok_of_source u p m t r br pp hsrc, hfetch, hne, parse_rss, hfilter]

/-- C7 witness: a feed that fetches successfully and parses to no entries
filters to the empty list, and the run performs no side effect. -/
theorem claim_C7_empty_filter_no_side_effects_witness :
    ((some "http://x" : Option String).isSome || (none : Option String).isSome) = true ∧
    fetch_rss envEmptyFeed ⟨some "http://x", none, none, "7", some "repo",
      "main", "content/post"⟩ = Except.ok (some "<rss/>") ∧
    "<rss/>" ≠ "" ∧
    filter_items "7" envEmptyFeed.now (envEmptyFeed.parse "<rss/>") = Except.ok [] ∧
    mainRun envEmptyFeed (some "http://x") none none "7" (some "repo") "main"
      "content/post" true = ([], ExitStatus.success0) :=
  ⟨rfl, rfl, by decide, rfl,
   claim_C7_empty_filter_no_side_effects envEmptyFeed (some "http://x") none
     none "7" (some "repo") "main" "content/post" true "<rss/>"
     rfl rfl (by decide) rfl⟩

/-- C8 counterexample: with every git command exiting with status 128, the
publish step still runs clone, config, add, commit and push, raises no error,
and the run ends with status 0 and the success message — refuting the claim
that a non-zero exit from clone or from stage/commit/push is fatal and makes
the run end with a non-zero status. -/
theorem claim_C8_exit_codes_counterexample :
    mainRun envGitFail (some "http://x") none none "7"
        (some "https://repo.example/blog.git") "main" "content/post" true =
      ([Event.system "git clone https://repo.example/blog.git /tmp/work" 128,
        Event.mkdir "/tmp/work/content/post/assorted-links-2025-02-11",
        Event.fileWrite "/tmp/work/content/post/assorted-links-2025-02-11/index.md" "POST",
        Event.system "git -C /tmp/work config --local commit.gpgsign false" 128,
        Event.system "git -C /tmp/work add /tmp/work/content/post/assorted-links-2025-02-11/index.md" 128,
        Event.system "git -C /tmp/work commit -m 'Add new assorted links.'" 128,
        Event.system "git -C /tmp/work push" 128],
       ExitStatus.success0) := rfl

/-- C8 amended: the publish step never inspects the exit codes returned by
os.system: whenever the slug directory creation and the file write succeed,
it runs all of clone, config, add, commit and push — whatever exit codes the
environment returns for them, non-zero included — raises no CloneError or
PublishError, and reports success. -/
theorem claim_C8_amended_exit_codes_ignored (b : PostBuilder) (env : Env)
    (post : String)
    (hmk : env.mkdirOk (postDirOf b env) = true)
    (hwr : env.writeOk (postFileOf b env) = true) :
    push_post_to_blog_repo b env post =
      ([Event.system (cloneCmdOf b env) (env.system (cloneCmdOf b env)),
        Event.mkdir (postDirOf b env),
        Event.fileWrite (postFileOf b env) post,
        Event.system (cfgCmdOf env) (env.system (cfgCmdOf env)),
        Event.system (addCmdOf b env) (env.system (addCmdOf b env)),
        Event.system (commitCmdOf env) (env.system (commitCmdOf env)),
        Event.system (pushCmdOf env) (env.system (pushCmdOf env))], none) := by
  simp [push_post_to_blog_repo, hmk, hwr]

/-- C8 witness: the amended theorem applied in the environment where every
git command exits with status 128. -/
theorem claim_C8_amended_exit_codes_ignored_witness :
    envGitFail.mkdirOk (postDirOf ⟨some "http://x", none, none, "7",
      some "https://repo.example/blog.git", "main", "content/post"⟩ envGitFail) = true ∧
    envGitFail.writeOk (postFileOf ⟨some "http://x", none, none, "7",
      some "https://repo.example/blog.git", "main", "content/post"⟩ envGitFail) = true ∧
    push_post_to_blog_repo ⟨some "http://x", none, none, "7",
        some "https://repo.example/blog.git", "main", "content/post"⟩ envGitFail "POST" =
      ([Event.system (cloneCmdOf ⟨some "http://x", none, none, "7",
          some "https://repo.example/blog.git", "main", "content/post"⟩ envGitFail)
          (envGitFail.system (cloneCmdOf ⟨some "http://x", none, none, "7",
            some "https://repo.example/blog.git", "main", "content/post"⟩ envGitFail)),
        Event.mkdir (postDirOf ⟨some "http://x", none, none, "7",
          some "https://repo.example/blog.git", "main", "content/post"⟩ envGitFail),
        Event.fileWrite (postFileOf ⟨some "http://x", none, none, "7",
          some "https://repo.example/blog.git", "main", "content/post"⟩ envGitFail) "POST",
        Event.system (cfgCmdOf envGitFail) (envGitFail.system (cfgCmdOf envGitFail)),
        Event.system (addCmdOf ⟨some "http://x", none, none, "7",
          some "https://repo.example/blog.git", "main", "content/post"⟩ envGitFail)
          (envGitFail.system (addCmdOf ⟨some "http://x", none, none, "7",
            some "https://repo.example/blog.git", "main", "content/post"⟩ envGitFail)),
        Event.system (commitCmdOf envGitFail) (envGitFail.system (commitCmdOf envGitFail)),
        Event.system (pushCmdOf envGitFail) (envGitFail.system (pushCmdOf envGitFail))],
       none) :=
  ⟨rfl, rfl,
   claim_C8_amended_exit_codes_ignored ⟨some "http://x", none, none, "7",
     some "https://repo.example/blog.git", "main", "content/post"⟩ envGitFail
     "POST" rfl rfl⟩

/-- C9: the publish step is entirely independent of the configured branch —
two configurations differing only in `blog_repo_branch` produce identical
publish behaviour — and the clone command it issues names only the repository
and the temporary directory, with no branch argument.  The claim that the
clone targets `config.branch` is therefore contradicted by the code: the
branch field is dead. -/
theorem claim_C9_clone_ignores_branch (u p : Option String) (m : Option Nat)
    (t : String) (r : Option String) (br1 br2 pp : String) (env : Env)
    (post : String) :
    push_post_to_blog_repo ⟨u, p, m, t, r, br1, pp⟩ env post =
      push_post_to_blog_repo ⟨u, p, m, t, r, br2, pp⟩ env post ∧
    cloneCmdOf ⟨u, p, m, t, r, br1, pp⟩ env =
      "git clone " ++ optStr r ++ " " ++ env.tmp_dir :=
  ⟨rfl, rfl⟩

/-- C10: with the blog repository unset, construction succeeds exactly when a
feed source is provided — the feed-source check is the only validation the
constructor performs, and the stored configuration keeps `blog_repo` unset
for the later pipeline stages. -/
theorem claim_C10_blog_repo_not_validated (u p : Option String) (m : Option Nat)
    (t : String) (br pp : String) :
    PostBuilder.init u p m t none br pp =
        Except.ok ⟨u, p, m, t, none, br, pp⟩ ↔
      (u.isSome || p.isSome) = true := by
  constructor
  · intro h
    by_cases hc : u = none ∧ p = none
    · rw [PostBuilder.init, if_pos hc] at h
      exact absurd h (by simp)
    · rcases u with _ | u
      · rcases p with _ | p
        · exact absurd ⟨rfl, rfl⟩ hc
        · rfl
      · rfl
  · intro h
    exact init_ok_of_source u p m t none br pp h
